import Mathlib

/-!
Verification of the RAW-to-JPEG two-tier processing pipeline
(`preprocess.py`, `filters.py`, `hardware.py`, `app.py`).

The development shallowly embeds the pipeline:

* `hashlib.sha256` is modelled bit-faithfully over `ℕ` with explicit
  `% 2^32` truncation (validated against the standard SHA-256 test
  vectors), so the cache key of `file_hash_of_raw_and_filters` is the
  real 16-hex-character truncated digest.
* Filter parameter mappings (`dict`s in the source) are association
  lists `List (String × ℚ)`; `dict.get(k, d)` is `dget`, and Python's
  `sorted` on the item list is Mathlib's `insertionSort` under the
  lexicographic order on `(String × ℚ)` (the orders agree: both are the
  unique sorted arrangement under an antisymmetric total order).
* Rasters are lists of `(blue, green, red)` channel triples over `ℕ`;
  `numpy` float32 arithmetic is idealised as exact rational arithmetic,
  `np.clip(x, 0, 255)` followed by `astype(np.uint8)` is
  `⌊max 0 (min 255 x)⌋₊` (truncation of a non-negative value).
* The external collaborators (OpenCV colour-space conversion,
  `cv2.filter2D`, `cv2.resize`, RAW decoding, JPEG encoding) are
  explicit function parameters of the orchestrator models; the
  orchestration logic around them (cache-key computation, cache-hit
  short-circuiting, skip guards, battery-adjusted quality) is embedded
  from the source.
* Filesystem state is the list of existing cache paths; the effects a
  call performs (RAW decode, filter invocations, encode, store) are
  recorded in an explicit `Effect` trace.
-/

/-! ## SHA-256 over natural numbers (model of `hashlib.sha256`) -/

/-- Truncate a natural number to 32 bits, modelling `uint32` arithmetic. -/
def w32 (n : ℕ) : ℕ := n % 4294967296

/-- Rotate a 32-bit word right by `n` bits. -/
def rotr (n x : ℕ) : ℕ := w32 ((x >>> n) ||| (x <<< (32 - n)))

/-- SHA-256 choice function (`~x` is `x ^^^ 0xffffffff` within 32 bits). -/
def chOp (x y z : ℕ) : ℕ := (x &&& y) ^^^ ((x ^^^ 4294967295) &&& z)

/-- SHA-256 majority function. -/
def majOp (x y z : ℕ) : ℕ := (x &&& y) ^^^ (x &&& z) ^^^ (y &&& z)

/-- SHA-256 big sigma-0. -/
def bigSigma0 (x : ℕ) : ℕ := rotr 2 x ^^^ rotr 13 x ^^^ rotr 22 x

/-- SHA-256 big sigma-1. -/
def bigSigma1 (x : ℕ) : ℕ := rotr 6 x ^^^ rotr 11 x ^^^ rotr 25 x

/-- SHA-256 small sigma-0. -/
def smallSigma0 (x : ℕ) : ℕ := rotr 7 x ^^^ rotr 18 x ^^^ (x >>> 3)

/-- SHA-256 small sigma-1. -/
def smallSigma1 (x : ℕ) : ℕ := rotr 17 x ^^^ rotr 19 x ^^^ (x >>> 10)

/-- The eight 32-bit words of the SHA-256 chaining state. -/
structure H8 where
  a : ℕ
  b : ℕ
  c : ℕ
  d : ℕ
  e : ℕ
  f : ℕ
  g : ℕ
  h : ℕ

/-- SHA-256 initial chaining state. -/
def shaInit : H8 :=
  ⟨1779033703,
   3144134277,
   1013904242,
   2773480762,
   1359893119,
   2600822924,
   528734635,
   1541459225⟩

/-- The 64 SHA-256 round constants. -/
def shaK : List ℕ :=
  [1116352408, 1899447441, 3049323471, 3921009573, 961987163,
   1508970993, 2453635748, 2870763221, 3624381080, 310598401,
   607225278, 1426881987, 1925078388, 2162078206, 2614888103,
   3248222580, 3835390401, 4022224774, 264347078, 604807628,
   770255983, 1249150122, 1555081692, 1996064986, 2554220882,
   2821834349, 2952996808, 3210313671, 3336571891, 3584528711,
   113926993, 338241895, 666307205, 773529912, 1294757372,
   1396182291, 1695183700, 1986661051, 2177026350, 2456956037,
   2730485921, 2820302411, 3259730800, 3345764771, 3516065817,
   3600352804, 4094571909, 275423344, 430227734, 506948616,
   659060556, 883997877, 958139571, 1322822218, 1537002063,
   1747873779, 1955562222, 2024104815, 2227730452, 2361852424,
   2428436474, 2756734187, 3204031479, 3329325298]

/-- Big-endian byte rendering of `v` into `k` bytes (most significant first). -/
def beBytes : ℕ → ℕ → List ℕ
  | 0, _ => []
  | k + 1, v => beBytes k (v / 256) ++ [v % 256]

/-- SHA-256 message padding: append `0x80`, zeros, and the 64-bit big-endian bit length. -/
def padBytes (msg : List ℕ) : List ℕ :=
  let L := msg.length
  msg ++ [128] ++ List.replicate ((64 - ((L + 9) % 64)) % 64) 0 ++ beBytes 8 (8 * L)

/-- Group bytes four at a time into big-endian 32-bit words. -/
def bytesToWords : List ℕ → List ℕ
  | b0 :: b1 :: b2 :: b3 :: rest =>
      (b0 * 16777216 + b1 * 65536 + b2 * 256 + b3) :: bytesToWords rest
  | _ => []

/-- Fuelled 64-byte chunking (the fuel is the list length, always sufficient). -/
def chunksAux : ℕ → List ℕ → List (List ℕ)
  | 0, _ => []
  | _, [] => []
  | fuel + 1, l => l.take 64 :: chunksAux fuel (l.drop 64)

/-- Split a byte list into 64-byte blocks. -/
def chunks64 (l : List ℕ) : List (List ℕ) := chunksAux l.length l

/-- Extend a 16-word block by `k` further message-schedule words. -/
def extendWords : ℕ → List ℕ → List ℕ
  | 0, ws => ws
  | k + 1, ws =>
      let n := ws.length
      let wNew := w32 (smallSigma1 (ws.getD (n - 2) 0) + ws.getD (n - 7) 0 +
                       smallSigma0 (ws.getD (n - 15) 0) + ws.getD (n - 16) 0)
      extendWords k (ws ++ [wNew])

/-- The 64-word SHA-256 message schedule of one block. -/
def msgSchedule (block16 : List ℕ) : List ℕ := extendWords 48 block16

/-- One SHA-256 compression round. -/
def roundStep (s : H8) (kw : ℕ × ℕ) : H8 :=
  let t1 := w32 (s.h + bigSigma1 s.e + chOp s.e s.f s.g + kw.1 + kw.2)
  let t2 := w32 (bigSigma0 s.a + majOp s.a s.b s.c)
  ⟨w32 (t1 + t2), s.a, s.b, s.c, w32 (s.d + t1), s.e, s.f, s.g⟩

/-- Compress one 64-byte block into the chaining state. -/
def compressBlock (hv : H8) (block : List ℕ) : H8 :=
  let ws := msgSchedule (bytesToWords block)
  let fin := (shaK.zip ws).foldl roundStep hv
  ⟨w32 (hv.a + fin.a), w32 (hv.b + fin.b), w32 (hv.c + fin.c), w32 (hv.d + fin.d),
   w32 (hv.e + fin.e), w32 (hv.f + fin.f), w32 (hv.g + fin.g), w32 (hv.h + fin.h)⟩

/-- Big-endian bytes of one 32-bit word. -/
def wordBytes (w : ℕ) : List ℕ :=
  [w / 16777216 % 256, w / 65536 % 256, w / 256 % 256, w % 256]

/-- The 32 digest bytes of a final chaining state. -/
def digestBytes (hv : H8) : List ℕ :=
  wordBytes hv.a ++ wordBytes hv.b ++ wordBytes hv.c ++ wordBytes hv.d ++
  wordBytes hv.e ++ wordBytes hv.f ++ wordBytes hv.g ++ wordBytes hv.h

/-- SHA-256 of a byte string, as its 32 digest bytes.  Validated against the
standard test vectors (empty string, "abc"). -/
def sha256 (msg : List ℕ) : List ℕ :=
  digestBytes ((chunks64 (padBytes msg)).foldl compressBlock shaInit)

/-- The lowercase hexadecimal alphabet used by `hexdigest()`. -/
def hexDigits : String := "0123456789abcdef"

/-- Hex character of a nibble (out-of-range indices fall back to a hex digit,
so membership in the alphabet holds unconditionally). -/
def hexChar (n : ℕ) : Char := hexDigits.data.getD n '0'

/-- Two hex characters per byte, as in `hexdigest()`. -/
def hexChars : List ℕ → List Char
  | [] => []
  | b :: rest => hexChar (b / 16) :: hexChar (b % 16) :: hexChars rest

/-! ## Filter parameter mappings and the cache key
(`file_hash_of_raw_and_filters`, `src/preprocess.py` lines 15-25) -/

/-- A filter-parameter mapping: the item list of a Python `dict` mapping
adjustment names to numeric strengths. -/
abbrev FiltersConfig : Type := List (String × ℚ)

/-- `cfg.get(k, d)`: value of key `k`, or default `d` when absent. -/
def dget (cfg : FiltersConfig) (k : String) (d : ℚ) : ℚ :=
  (List.lookup k cfg).getD d

/-- Code-point list of an item's key: Python compares strings
lexicographically by Unicode code point. -/
def itemKey (x : String × ℚ) : List ℕ := x.1.data.map Char.toNat

/-- The order Python's `sorted` uses on `dict.items()`: lexicographic on the
(key, value) tuples, keys compared code point by code point. -/
def itemLe (x y : String × ℚ) : Prop :=
  itemKey x < itemKey y ∨ (itemKey x = itemKey y ∧ x.2 ≤ y.2)

instance : DecidableRel itemLe := fun x y => by
  unfold itemLe
  infer_instance

theorem itemKey_inj {x y : String × ℚ} (h : itemKey x = itemKey y) : x.1 = y.1 := by
  have hchar : Function.Injective Char.toNat := fun a b hab =>
    Char.ext (UInt32.ext hab)
  exact String.ext (List.map_injective_iff.2 hchar h)

instance : IsTrans (String × ℚ) itemLe := by
  constructor
  intro x y z hxy hyz
  rcases hxy with h1 | ⟨h1, h1v⟩ <;> rcases hyz with h2 | ⟨h2, h2v⟩
  · exact Or.inl (lt_trans h1 h2)
  · exact Or.inl (h2 ▸ h1)
  · exact Or.inl (h1 ▸ h2)
  · exact Or.inr ⟨h1.trans h2, le_trans h1v h2v⟩

instance : IsTotal (String × ℚ) itemLe := by
  constructor
  intro x y
  rcases lt_trichotomy (itemKey x) (itemKey y) with h | h | h
  · exact Or.inl (Or.inl h)
  · rcases le_total x.2 y.2 with hv | hv
    · exact Or.inl (Or.inr ⟨h, hv⟩)
    · exact Or.inr (Or.inr ⟨h.symm, hv⟩)
  · exact Or.inr (Or.inl h)

instance : IsAntisymm (String × ℚ) itemLe := by
  constructor
  intro x y hxy hyx
  rcases hxy with h1 | ⟨h1, h1v⟩
  · rcases hyx with h2 | ⟨h2, _⟩
    · exact absurd h1 (lt_asymm h2)
    · exact absurd h1 (h2 ▸ lt_irrefl _)
  · rcases hyx with h2 | ⟨_, h2v⟩
    · exact absurd h2 (h1 ▸ lt_irrefl _)
    · have hk : x.1 = y.1 := itemKey_inj h1
      rcases x with ⟨xk, xv⟩
      rcases y with ⟨yk, yv⟩
      simp only at hk h1v h2v
      rw [hk, le_antisymm h1v h2v]

/-- `sorted(cfg.items())`: the unique `itemLe`-sorted arrangement. -/
def sortItems (cfg : FiltersConfig) : List (String × ℚ) :=
  List.insertionSort itemLe cfg

/-- An ASCII apostrophe, built from its code point. -/
def quo : String := String.singleton (Char.ofNat 39)

/-- Python `repr` of one `(key, value)` item.  Python renders the value with
shortest-round-trip float repr, which has no exact rational counterpart; this
stand-in renders the rational directly.  The cache-key theorems depend only on
this rendering being a function of the sorted item list. -/
def pyReprPair (p : String × ℚ) : String :=
  "(" ++ quo ++ p.1 ++ quo ++ ", " ++ toString p.2 ++ ")"

/-- Python `str` of a sorted item list. -/
def pyReprItems (l : List (String × ℚ)) : String :=
  "[" ++ String.intercalate ", " (l.map pyReprPair) ++ "]"

/-- UTF-8 encoding of one code point (standard 1-4 byte layout; agrees with
`String.toUTF8` on every char, stated over `ℕ` so the kernel can evaluate
it). -/
def utf8Bytes (c : Char) : List ℕ :=
  let n := c.toNat
  if n < 128 then [n]
  else if n < 2048 then [192 + n / 64, 128 + n % 64]
  else if n < 65536 then [224 + n / 4096, 128 + n / 64 % 64, 128 + n % 64]
  else [240 + n / 262144, 128 + n / 4096 % 64, 128 + n / 64 % 64, 128 + n % 64]

/-- UTF-8 bytes of a string, as in `.encode("utf-8")`. -/
def strBytes (s : String) : List ℕ := s.data.flatMap utf8Bytes

/-- Identity of a RAW input: path, byte size, and second-resolution
modification time (`int(st.st_mtime)`). -/
structure SourceDesc where
  path : String
  size : ℕ
  mtime : ℤ

/-- The bytes hashed by `file_hash_of_raw_and_filters`: path, `str(size)`,
`str(int(mtime))`, then — only when the mapping is non-empty, matching the
`if filters_config:` truthiness test — `str(sorted(filters_config.items()))`. -/
def hashMessage (src : SourceDesc) (cfg : FiltersConfig) : List ℕ :=
  strBytes src.path ++ strBytes (toString src.size) ++ strBytes (toString src.mtime) ++
  (if cfg = ([] : List (String × ℚ)) then [] else strBytes (pyReprItems (sortItems cfg)))

/-- `file_hash_of_raw_and_filters`: first 16 hex characters of the SHA-256
digest of the source descriptor and canonically sorted filter parameters. -/
def file_hash_of_raw_and_filters (src : SourceDesc) (cfg : FiltersConfig) : String :=
  String.mk ((hexChars (sha256 (hashMessage src cfg))).take 16)

/-! ## Rasters and the Filter Pipeline (`src/filters.py`) -/

/-- One pixel: a `(channel0, channel1, channel2)` triple of 8-bit values.
In BGR rasters channel 0 is blue, channel 1 green, channel 2 red; after a
colour-space conversion the channels are (H, S, V). -/
abbrev Pixel : Type := ℕ × ℕ × ℕ

/-- An in-memory raster, as its pixel list. -/
abbrev Raster : Type := List Pixel

/-- `np.clip(x, 0, 255)` followed by `astype(np.uint8)`: clamp to the byte
range and truncate (truncation of the clamped, hence non-negative, value is
the floor). -/
def clampByte (q : ℚ) : ℕ := ⌊max 0 (min 255 q)⌋₊

/-- `apply_saturation` (`src/filters.py` lines 17-25): convert to HSV,
multiply the saturation channel by `factor` with clamping, convert back.
The OpenCV colour-space conversions `cv2.cvtColor(·, BGR2HSV / HSV2BGR)` are
external collaborators and are passed in as `toHSV` / `fromHSV`. -/
def apply_saturation (toHSV fromHSV : Pixel → Pixel) (img : Raster) (factor : ℚ) : Raster :=
  img.map fun p =>
    let hsv := toHSV p
    fromHSV (hsv.1, clampByte ((hsv.2.1 : ℚ) * factor), hsv.2.2)

/-- `apply_warmth` (`src/filters.py` lines 27-34): in BGR order, channel 2
(red) is multiplied by `strength` and channel 0 (blue) by `2.0 - strength`,
each clamped to 0-255; channel 1 (green) is untouched. -/
def apply_warmth (img : Raster) (strength : ℚ) : Raster :=
  img.map fun p =>
    (clampByte ((p.1 : ℚ) * (2 - strength)), p.2.1, clampByte ((p.2.2 : ℚ) * strength))

/-- Per-channel brightness/contrast arithmetic of `adjust_brightness_contrast`:
`clip(c * contrast + (brightness - 1.0) * 128, 0, 255)`. -/
def bcByte (brightness contrast : ℚ) (c : ℕ) : ℕ :=
  clampByte ((c : ℚ) * contrast + (brightness - 1) * 128)

/-- `adjust_brightness_contrast` (`src/filters.py` lines 36-43), applied to
every channel of every pixel. -/
def adjust_brightness_contrast (img : Raster) (brightness contrast : ℚ) : Raster :=
  img.map fun p =>
    (bcByte brightness contrast p.1, bcByte brightness contrast p.2.1,
     bcByte brightness contrast p.2.2)

/-- The 3x3 sharpening kernel of `sharpen` (`src/filters.py` line 48):
centre weight `5 + strength`, axis-adjacent neighbours `-1`, corners `0`. -/
def sharpenKernel (strength : ℚ) : List (List ℚ) :=
  [[0, -1, 0], [-1, 5 + strength, -1], [0, -1, 0]]

/-- `sharpen` (`src/filters.py` lines 45-50): build the kernel and convolve.
`cv2.filter2D` is an external collaborator passed in as `filter2D`. -/
def sharpen (filter2D : List (List ℚ) → Raster → Raster) (img : Raster) (strength : ℚ) : Raster :=
  filter2D (sharpenKernel strength) img

/-! ## Filter invocation in the three entry points
(`src/preprocess.py` lines 91-103, 150-158, 182-194) -/

/-- Names of the filters the fast-preview path invokes, in order
(`fast_preview_raw`, lines 91-103): each of saturation, warmth and the
combined brightness/contrast step is guarded by a neutral-value test, and
sharpen by `> 0`. -/
def previewTrace (cfg : FiltersConfig) : List String :=
  (if dget cfg "saturation" 1 ≠ 1 then ["saturation"] else []) ++
  (if dget cfg "warmth" 1 ≠ 1 then ["warmth"] else []) ++
  (if dget cfg "brightness" 1 ≠ 1 ∨ dget cfg "contrast" 1 ≠ 1 then ["brightness_contrast"] else []) ++
  (if 0 < dget cfg "sharpen" 0 then ["sharpen"] else [])

/-- Names of the filters the full-processing path invokes, in order
(`full_process_raw`, lines 150-158): `apply_saturation`, `apply_warmth` and
`adjust_brightness_contrast` are called unconditionally — there is no
neutral-value guard on these lines — and only sharpen is guarded by `> 0`. -/
def fullTrace (cfg : FiltersConfig) : List String :=
  ["saturation", "warmth", "brightness_contrast"] ++
  (if 0 < dget cfg "sharpen" 0 then ["sharpen"] else [])

/-- Names of the filters the ad-hoc re-filter path invokes, in order
(`apply_filters_to_jpeg`, lines 182-194): same guards as the preview path. -/
def applyJpegTrace (cfg : FiltersConfig) : List String :=
  (if dget cfg "saturation" 1 ≠ 1 then ["saturation"] else []) ++
  (if dget cfg "warmth" 1 ≠ 1 then ["warmth"] else []) ++
  (if dget cfg "brightness" 1 ≠ 1 ∨ dget cfg "contrast" 1 ≠ 1 then ["brightness_contrast"] else []) ++
  (if 0 < dget cfg "sharpen" 0 then ["sharpen"] else [])

/-- The raster transformation of the fast-preview filter section
(`fast_preview_raw`, lines 91-103). -/
def previewApplyFilters (toHSV fromHSV : Pixel → Pixel)
    (filter2D : List (List ℚ) → Raster → Raster) (cfg : FiltersConfig) (bgr : Raster) : Raster :=
  let p1 := if dget cfg "saturation" 1 ≠ 1
            then apply_saturation toHSV fromHSV bgr (dget cfg "saturation" 1) else bgr
  let p2 := if dget cfg "warmth" 1 ≠ 1
            then apply_warmth p1 (dget cfg "warmth" 1) else p1
  let p3 := if dget cfg "brightness" 1 ≠ 1 ∨ dget cfg "contrast" 1 ≠ 1
            then adjust_brightness_contrast p2 (dget cfg "brightness" 1) (dget cfg "contrast" 1)
            else p2
  if 0 < dget cfg "sharpen" 0 then sharpen filter2D p3 (dget cfg "sharpen" 0) else p3

/-- The raster transformation of the full-processing filter section
(`full_process_raw`, lines 150-158): the first three filters run
unconditionally. -/
def fullApplyFilters (toHSV fromHSV : Pixel → Pixel)
    (filter2D : List (List ℚ) → Raster → Raster) (cfg : FiltersConfig) (bgr : Raster) : Raster :=
  let p1 := apply_saturation toHSV fromHSV bgr (dget cfg "saturation" 1)
  let p2 := apply_warmth p1 (dget cfg "warmth" 1)
  let p3 := adjust_brightness_contrast p2 (dget cfg "brightness" 1) (dget cfg "contrast" 1)
  if 0 < dget cfg "sharpen" 0 then sharpen filter2D p3 (dget cfg "sharpen" 0) else p3

/-- The raster transformation of the ad-hoc re-filter section
(`apply_filters_to_jpeg`, lines 182-194). -/
def applyJpegFilters (toHSV fromHSV : Pixel → Pixel)
    (filter2D : List (List ℚ) → Raster → Raster) (cfg : FiltersConfig) (img : Raster) : Raster :=
  let p1 := if dget cfg "saturation" 1 ≠ 1
            then apply_saturation toHSV fromHSV img (dget cfg "saturation" 1) else img
  let p2 := if dget cfg "warmth" 1 ≠ 1
            then apply_warmth p1 (dget cfg "warmth" 1) else p1
  let p3 := if dget cfg "brightness" 1 ≠ 1 ∨ dget cfg "contrast" 1 ≠ 1
            then adjust_brightness_contrast p2 (dget cfg "brightness" 1) (dget cfg "contrast" 1)
            else p2
  if 0 < dget cfg "sharpen" 0 then sharpen filter2D p3 (dget cfg "sharpen" 0) else p3

/-! ## Hardware policy (`processing_policy`, `src/hardware.py` lines 32-67) -/

/-- The policy value object returned by `processing_policy`. -/
structure Policy where
  cpu_count : ℕ
  battery : Option ℤ
  use_opencl : Bool
  n_workers : ℕ
  preview_max_dim : ℕ

/-- `processing_policy` (`src/hardware.py` lines 32-67) as a function of the
sampled environment: CPU count, battery percentage (`none` when unreadable)
and whether OpenCL could be enabled.  The worker baseline is halved with
`int(n_workers / 2)` — Python float division then truncation, modelled as the
rational floor — when the battery is known and at most 20. -/
def processing_policy (cpu : ℕ) (battery : Option ℤ) (opencl : Bool) : Policy :=
  let preview_max_dim := 1024
  let base := if 8 ≤ cpu then min 6 (cpu - 1) else if 4 ≤ cpu then cpu - 1 else 1
  let lowBattery := match battery with
    | some b => decide (b ≤ 20)
    | none => false
  let nw := if lowBattery then max 1 ⌊(base : ℚ) / 2⌋₊ else base
  ⟨cpu, battery, opencl, nw, preview_max_dim⟩

/-! ## Battery-adjusted JPEG quality (`full_process_raw`, lines 160-165) -/

/-- The effective JPEG encode quality of `full_process_raw`: when the battery
percentage is known and at most 15, the requested quality is reduced by 6 but
never below 85; otherwise it is used unchanged. -/
def effective_quality (battery : Option ℤ) (quality : ℤ) : ℤ :=
  match battery with
  | some b => if b ≤ 15 then max 85 (quality - 6) else quality
  | none => quality

/-! ## Preview resize (`fast_preview_raw`, lines 84-88) -/

/-- `scale = min(1.0, max_dim / max(h, w))`. -/
def previewScale (h w max_dim : ℕ) : ℚ :=
  min 1 ((max_dim : ℚ) / ((max h w : ℕ) : ℚ))

/-- Result dimensions of the preview resize step: when `scale < 1` the raster
is resized to `(int(h*scale), int(w*scale))` (truncation of non-negative
values is the floor); otherwise it keeps its dimensions. -/
def resizedDims (h w max_dim : ℕ) : ℕ × ℕ :=
  if previewScale h w max_dim < 1 then
    (⌊(h : ℚ) * previewScale h w max_dim⌋₊, ⌊(w : ℚ) * previewScale h w max_dim⌋₊)
  else (h, w)

/-! ## The Processing Orchestrator (`src/preprocess.py`) -/

/-- The default filter preset substituted by `fast_preview_raw` when called
with `filters_config=None` (lines 51-58). -/
def preview_default_filters : FiltersConfig :=
  [("saturation", mkRat 23 20), ("warmth", mkRat 51 50), ("brightness", 1),
   ("contrast", mkRat 51 50), ("sharpen", 0)]

/-- The default filter preset substituted by `full_process_raw` when called
with `filters_config=None` (lines 115-122): identical to the preview preset
except that sharpen is `0.5`. -/
def full_default_filters : FiltersConfig :=
  [("saturation", mkRat 23 20), ("warmth", mkRat 51 50), ("brightness", 1),
   ("contrast", mkRat 51 50), ("sharpen", mkRat 1 2)]

/-- An all-neutral filter mapping: every multiplicative strength `1.0` and
sharpen `0.0`. -/
def neutral_filters : FiltersConfig :=
  [("saturation", 1), ("warmth", 1), ("brightness", 1), ("contrast", 1), ("sharpen", 0)]

/-- `os.path.join("data", "cache")`. -/
def cacheDir : String := "data/cache"

/-- The cache path of the preview tier for a key: `preview_<key>.jpg` inside
the cache directory. -/
def previewPathFor (key : String) : String :=
  cacheDir ++ "/preview_" ++ key ++ ".jpg"

/-- The cache path of the full tier for a key: `full_<key>.jpg` inside the
cache directory. -/
def fullPathFor (key : String) : String :=
  cacheDir ++ "/full_" ++ key ++ ".jpg"

/-- The observable steps an orchestrator call may perform. -/
inductive Effect where
  | decodeRaw : Effect
  | runFilter : String → Effect
  | encodeJpeg : Effect
  | storeFile : Effect
deriving DecidableEq, Repr

/-- A decoded RAW frame: its dimensions and RGB pixel data. -/
structure DecodedRaw where
  height : ℕ
  width : ℕ
  pixels : Raster

/-- `cv2.cvtColor(·, RGB2BGR)`: swap channels 0 and 2. -/
def swapRB (p : Pixel) : Pixel := (p.2.2, p.2.1, p.1)

/-- `fast_preview_raw` (`src/preprocess.py` lines 42-107).  External
collaborators are parameters: `dec` is the `rawpy` decode outcome (`none`
models a decode failure, which raises), `resize` is `cv2.resize`, and the
colour/convolution collaborators feed the Filter Pipeline.  The return value
pairs the preview path with the list of effects the call performed and the
processed raster it encoded (`none` on a cache hit, where nothing runs). -/
def fast_preview_raw (dec : Option DecodedRaw) (toHSV fromHSV : Pixel → Pixel)
    (filter2D : List (List ℚ) → Raster → Raster) (resize : ℕ → ℕ → Raster → Raster)
    (fs : List String) (src : SourceDesc) (cfgOpt : Option FiltersConfig) (max_dim : ℕ) :
    Except String (String × List Effect × Option Raster) :=
  let cfg := cfgOpt.getD preview_default_filters
  let key := file_hash_of_raw_and_filters src cfg
  let preview_path := previewPathFor key
  if preview_path ∈ fs then Except.ok (preview_path, [], none)
  else
    match dec with
    | none => Except.error "Failed to read RAW for preview"
    | some raw =>
      let bgr := raw.pixels.map swapRB
      let bgr2 := if previewScale raw.height raw.width max_dim < 1 then
                    resize (resizedDims raw.height raw.width max_dim).1
                           (resizedDims raw.height raw.width max_dim).2 bgr
                  else bgr
      let proc := previewApplyFilters toHSV fromHSV filter2D cfg bgr2
      Except.ok (preview_path,
                 Effect.decodeRaw :: (previewTrace cfg).map Effect.runFilter ++
                   [Effect.encodeJpeg, Effect.storeFile],
                 some proc)

/-- `full_process_raw` (`src/preprocess.py` lines 109-168).  As for the
preview model, external collaborators are parameters; `battery` is the
battery reading `processing_policy` samples.  On a miss the payload carries
the processed raster together with the battery-adjusted encode quality. -/
def full_process_raw (dec : Option DecodedRaw) (toHSV fromHSV : Pixel → Pixel)
    (filter2D : List (List ℚ) → Raster → Raster) (battery : Option ℤ)
    (fs : List String) (src : SourceDesc) (cfgOpt : Option FiltersConfig) (quality : ℤ) :
    Except String (String × List Effect × Option (Raster × ℤ)) :=
  let cfg := cfgOpt.getD full_default_filters
  let key := file_hash_of_raw_and_filters src cfg
  let full_path := fullPathFor key
  if full_path ∈ fs then Except.ok (full_path, [], none)
  else
    match dec with
    | none => Except.error "Failed to read RAW for full processing"
    | some raw =>
      let bgr := raw.pixels.map swapRB
      let proc := fullApplyFilters toHSV fromHSV filter2D cfg bgr
      let q := effective_quality battery quality
      Except.ok (full_path,
                 Effect.decodeRaw :: (fullTrace cfg).map Effect.runFilter ++
                   [Effect.encodeJpeg, Effect.storeFile],
                 some (proc, q))

/-! ## Background Task Coordinator (`src/app.py` lines 48-56 and 94-100) -/

/-- The shared Job Status record written into `TASKS["last"]`: preview
reference, full reference (absent until that tier completes) and an optional
error description. -/
structure JobStatus where
  preview : Option String
  full : Option String
  error : Option String
deriving DecidableEq, Repr

/-- `os.path.basename`: the final path component. -/
def basename (s : String) : String :=
  (s.splitOn "/").getLastD s

/-- The body of the background worker `run_full` (`src/app.py` lines 48-56
and 94-100): the whole body is wrapped in `try/except Exception`, so the
function is total — it maps the outcome of `full_process_raw` (modelled as an
`Except` value) to the Job Status record it writes, and never re-raises.  On
success it records the preview and full basenames; on failure it records the
already-known preview, no full reference, and the error description. -/
def run_full (latestPreview : Option String) (result : Except String String) : JobStatus :=
  match result with
  | Except.ok full_path => ⟨latestPreview, some (basename full_path), none⟩
  | Except.error e => ⟨latestPreview, none, some e⟩

/-- The response of the `/status` polling endpoint (`src/app.py` lines
121-138). -/
structure StatusResp where
  done : Bool
  preview : Option String
  full : Option String
  error : Option String
deriving DecidableEq, Repr

/-- `/status` (`src/app.py` lines 121-138): before any background job has
recorded an outcome it reports the latest preview (and full, if present);
afterwards it reports the recorded Job Status, with `done` true exactly when
a full reference is present. -/
def status_endpoint (tasksLast : Option JobStatus) (latestPreview latestFull : Option String) :
    StatusResp :=
  match tasksLast with
  | none => ⟨false, latestPreview, latestFull, none⟩
  | some last => ⟨last.full.isSome, last.preview, last.full, last.error⟩

/-! ## Helper lemmas -/

theorem sortItems_congr {l1 l2 : FiltersConfig} (h : l1.Perm l2) :
    sortItems l1 = sortItems l2 :=
  List.eq_of_perm_of_sorted
    ((List.perm_insertionSort itemLe l1).trans (h.trans (List.perm_insertionSort itemLe l2).symm))
    (List.sorted_insertionSort itemLe l1)
    (List.sorted_insertionSort itemLe l2)

theorem hashMessage_congr (src : SourceDesc) {l1 l2 : FiltersConfig} (h : l1.Perm l2) :
    hashMessage src l1 = hashMessage src l2 := by
  unfold hashMessage
  rcases eq_or_ne l1 ([] : List (String × ℚ)) with rfl | hne
  · rw [h.symm.eq_nil]
  · have hne2 : l2 ≠ ([] : List (String × ℚ)) := fun e => hne ((e ▸ h).eq_nil)
    rw [if_neg hne, if_neg hne2, sortItems_congr h]

theorem digestBytes_length (hv : H8) : (digestBytes hv).length = 32 := by
  simp [digestBytes, wordBytes]

theorem sha256_length (msg : List ℕ) : (sha256 msg).length = 32 :=
  digestBytes_length _

theorem hexChars_length (bs : List ℕ) : (hexChars bs).length = 2 * bs.length := by
  induction bs with
  | nil => rfl
  | cons b rest ih =>
      simp only [hexChars, List.length_cons, ih]
      ring

theorem hexChar_in_alphabet (n : ℕ) : hexDigits.data.contains (hexChar n) = true := by
  unfold hexChar
  rcases Nat.lt_or_ge n 16 with h | h
  · interval_cases n <;> decide
  · rw [List.getD_eq_default _ _ (by simpa [hexDigits] using h)]
    decide

theorem hexChars_in_alphabet (bs : List ℕ) (c : Char) (hc : c ∈ hexChars bs) :
    hexDigits.data.contains c = true := by
  induction bs with
  | nil => simp [hexChars] at hc
  | cons b rest ih =>
      simp only [hexChars, List.mem_cons] at hc
      rcases hc with rfl | rfl | h
      · exact hexChar_in_alphabet _
      · exact hexChar_in_alphabet _
      · exact ih h

/-! ## Claim theorems -/

/-- C1.  The cache key computed by `file_hash_of_raw_and_filters` is
deterministic (it is a pure function of the source descriptor and the filter
parameters, so two computations on the same inputs agree), is 16 characters
long with every character a lowercase hex digit, and is independent of the
order in which the filter parameters are supplied: any two mappings with the
same key-value pairs (permutations of one another as item lists) yield the
same cache key, because the items are serialised in canonical sorted order
before hashing. -/
theorem cache_key_spec (src : SourceDesc) (cfg1 cfg2 : FiltersConfig)
    (hperm : cfg1.Perm cfg2) :
    file_hash_of_raw_and_filters src cfg1 = file_hash_of_raw_and_filters src cfg1 ∧
    (file_hash_of_raw_and_filters src cfg1).length = 16 ∧
    ((file_hash_of_raw_and_filters src cfg1).data.all
      (fun c => hexDigits.data.contains c)) = true ∧
    file_hash_of_raw_and_filters src cfg1 = file_hash_of_raw_and_filters src cfg2 := by
  refine ⟨rfl, ?_, ?_, ?_⟩
  · show (List.take 16 (hexChars (sha256 (hashMessage src cfg1)))).length = 16
    rw [List.length_take, hexChars_length, sha256_length]
    rfl
  · refine List.all_eq_true.2 (fun c hc => ?_)
    exact hexChars_in_alphabet _ c ((List.take_sublist 16 _).subset hc)
  · unfold file_hash_of_raw_and_filters
    rw [hashMessage_congr src hperm]

/-- Witness for C1: two concrete two-entry mappings that are permutations of
one another yield the same 16-hex-character key for a concrete source
descriptor. -/
theorem cache_key_spec_witness :
    ([("warmth", (51/50 : ℚ)), ("saturation", (23/20 : ℚ))] : FiltersConfig).Perm
      ([("saturation", (23/20 : ℚ)), ("warmth", (51/50 : ℚ))] : FiltersConfig) ∧
    (file_hash_of_raw_and_filters ⟨"data/raw/RAW_SONY_ILCE-7RM2.ARW", 43008000, 1700000000⟩
        [("warmth", (51/50 : ℚ)), ("saturation", (23/20 : ℚ))] =
      file_hash_of_raw_and_filters ⟨"data/raw/RAW_SONY_ILCE-7RM2.ARW", 43008000, 1700000000⟩
        [("warmth", (51/50 : ℚ)), ("saturation", (23/20 : ℚ))] ∧
    (file_hash_of_raw_and_filters ⟨"data/raw/RAW_SONY_ILCE-7RM2.ARW", 43008000, 1700000000⟩
        [("warmth", (51/50 : ℚ)), ("saturation", (23/20 : ℚ))]).length = 16 ∧
    ((file_hash_of_raw_and_filters ⟨"data/raw/RAW_SONY_ILCE-7RM2.ARW", 43008000, 1700000000⟩
        [("warmth", (51/50 : ℚ)), ("saturation", (23/20 : ℚ))]).data.all
      (fun c => hexDigits.data.contains c)) = true ∧
    file_hash_of_raw_and_filters ⟨"data/raw/RAW_SONY_ILCE-7RM2.ARW", 43008000, 1700000000⟩
        [("warmth", (51/50 : ℚ)), ("saturation", (23/20 : ℚ))] =
      file_hash_of_raw_and_filters ⟨"data/raw/RAW_SONY_ILCE-7RM2.ARW", 43008000, 1700000000⟩
        [("saturation", (23/20 : ℚ)), ("warmth", (51/50 : ℚ))]) :=
  ⟨List.Perm.swap _ _ _, cache_key_spec _ _ _ (List.Perm.swap _ _ _)⟩

/-- C2 counterexample.  The claim says that in every entry point a filter at
its neutral strength is not invoked.  At the concrete all-neutral mapping
`neutral_filters`, the full-processing entry point (`full_process_raw`,
`src/preprocess.py` lines 150-158) nevertheless invokes saturation, warmth
and brightness/contrast: those three calls carry no neutral-value guard. -/
theorem full_path_invokes_neutral_filters :
    dget neutral_filters "saturation" 1 = 1 ∧
    dget neutral_filters "warmth" 1 = 1 ∧
    dget neutral_filters "brightness" 1 = 1 ∧
    dget neutral_filters "contrast" 1 = 1 ∧
    "saturation" ∈ fullTrace neutral_filters ∧
    "warmth" ∈ fullTrace neutral_filters ∧
    "brightness_contrast" ∈ fullTrace neutral_filters := by
  decide

/-- C2 as amended.  In `fast_preview_raw` and `apply_filters_to_jpeg` a
filter at its neutral value (1.0 for the multiplicative filters, anything
not above 0 for sharpen) is not invoked, so an all-neutral request passes the
raster through the filter stage unchanged.  `full_process_raw`, however,
guards only sharpen: it invokes saturation, warmth and brightness/contrast
unconditionally, even at neutral strength, and only sharpen is skipped. -/
theorem filter_skip_rule_amended (cfg : FiltersConfig) (toHSV fromHSV : Pixel → Pixel)
    (filter2D : List (List ℚ) → Raster → Raster) (img : Raster)
    (hsat : dget cfg "saturation" 1 = 1) (hwarm : dget cfg "warmth" 1 = 1)
    (hbri : dget cfg "brightness" 1 = 1) (hcon : dget cfg "contrast" 1 = 1)
    (hsh : dget cfg "sharpen" 0 ≤ 0) :
    previewTrace cfg = [] ∧ applyJpegTrace cfg = [] ∧
    previewApplyFilters toHSV fromHSV filter2D cfg img = img ∧
    applyJpegFilters toHSV fromHSV filter2D cfg img = img ∧
    "saturation" ∈ fullTrace cfg ∧ "warmth" ∈ fullTrace cfg ∧
    "brightness_contrast" ∈ fullTrace cfg ∧ "sharpen" ∉ fullTrace cfg := by
  have hs : ¬ (0 : ℚ) < dget cfg "sharpen" 0 := not_lt.2 hsh
  refine ⟨?_, ?_, ?_, ?_, ?_, ?_, ?_, ?_⟩ <;>
    simp [previewTrace, applyJpegTrace, previewApplyFilters, applyJpegFilters, fullTrace,
          hsat, hwarm, hbri, hcon, hs]

/-- Witness for the amended C2 at the concrete all-neutral mapping, a
concrete raster and concrete collaborator functions. -/
theorem filter_skip_rule_amended_witness :
    (dget neutral_filters "saturation" 1 = 1 ∧ dget neutral_filters "warmth" 1 = 1 ∧
     dget neutral_filters "brightness" 1 = 1 ∧ dget neutral_filters "contrast" 1 = 1 ∧
     dget neutral_filters "sharpen" 0 ≤ 0) ∧
    (previewTrace neutral_filters = [] ∧ applyJpegTrace neutral_filters = [] ∧
     previewApplyFilters (fun p => p) (fun p => p) (fun _ r => r) neutral_filters
       [(10, 20, 30)] = [(10, 20, 30)] ∧
     applyJpegFilters (fun p => p) (fun p => p) (fun _ r => r) neutral_filters
       [(10, 20, 30)] = [(10, 20, 30)] ∧
     "saturation" ∈ fullTrace neutral_filters ∧ "warmth" ∈ fullTrace neutral_filters ∧
     "brightness_contrast" ∈ fullTrace neutral_filters ∧
     "sharpen" ∉ fullTrace neutral_filters) :=
  ⟨⟨by decide, by decide, by decide, by decide, by decide⟩,
   filter_skip_rule_amended neutral_filters (fun p => p) (fun p => p) (fun _ r => r)
     [(10, 20, 30)] (by decide) (by decide) (by decide) (by decide) (by decide)⟩

/-- C3.  For both `fast_preview_raw` and `full_process_raw`, when the cache
file for the computed key and tier already exists, the call returns that
cached path immediately with an empty effect trace — no RAW decode, no filter
invocation, no encode and no store — and computes no raster.  A repeated
request for identical inputs is therefore a pure filesystem-existence
check. -/
theorem cache_hit_short_circuit (dec : Option DecodedRaw) (toHSV fromHSV : Pixel → Pixel)
    (filter2D : List (List ℚ) → Raster → Raster) (resize : ℕ → ℕ → Raster → Raster)
    (battery : Option ℤ) (fs : List String) (src : SourceDesc)
    (cfgOpt : Option FiltersConfig) (max_dim : ℕ) (quality : ℤ)
    (hp : previewPathFor (file_hash_of_raw_and_filters src (cfgOpt.getD preview_default_filters)) ∈ fs)
    (hf : fullPathFor (file_hash_of_raw_and_filters src (cfgOpt.getD full_default_filters)) ∈ fs) :
    fast_preview_raw dec toHSV fromHSV filter2D resize fs src cfgOpt max_dim =
      Except.ok
        (previewPathFor (file_hash_of_raw_and_filters src (cfgOpt.getD preview_default_filters)),
         [], none) ∧
    full_process_raw dec toHSV fromHSV filter2D battery fs src cfgOpt quality =
      Except.ok
        (fullPathFor (file_hash_of_raw_and_filters src (cfgOpt.getD full_default_filters)),
         [], none) := by
  constructor
  · simp only [fast_preview_raw]
    rw [if_pos hp]
  · simp only [full_process_raw]
    rw [if_pos hf]

/-- Witness for C3: a filesystem that already holds both tier artifacts for a
concrete source descriptor under the default presets (the `cfgOpt = none`
call path) short-circuits both calls. -/
theorem cache_hit_short_circuit_witness :
    (previewPathFor (file_hash_of_raw_and_filters ⟨"data/raw/RAW_SONY_ILCE-7RM2.ARW", 42, 7⟩
        ((none : Option FiltersConfig).getD preview_default_filters)) ∈
      [previewPathFor (file_hash_of_raw_and_filters ⟨"data/raw/RAW_SONY_ILCE-7RM2.ARW", 42, 7⟩
          preview_default_filters),
       fullPathFor (file_hash_of_raw_and_filters ⟨"data/raw/RAW_SONY_ILCE-7RM2.ARW", 42, 7⟩
          full_default_filters)] ∧
     fullPathFor (file_hash_of_raw_and_filters ⟨"data/raw/RAW_SONY_ILCE-7RM2.ARW", 42, 7⟩
        ((none : Option FiltersConfig).getD full_default_filters)) ∈
      [previewPathFor (file_hash_of_raw_and_filters ⟨"data/raw/RAW_SONY_ILCE-7RM2.ARW", 42, 7⟩
          preview_default_filters),
       fullPathFor (file_hash_of_raw_and_filters ⟨"data/raw/RAW_SONY_ILCE-7RM2.ARW", 42, 7⟩
          full_default_filters)]) ∧
    (fast_preview_raw none (fun p => p) (fun p => p) (fun _ r => r) (fun _ _ r => r)
        [previewPathFor (file_hash_of_raw_and_filters ⟨"data/raw/RAW_SONY_ILCE-7RM2.ARW", 42, 7⟩
            preview_default_filters),
         fullPathFor (file_hash_of_raw_and_filters ⟨"data/raw/RAW_SONY_ILCE-7RM2.ARW", 42, 7⟩
            full_default_filters)]
        ⟨"data/raw/RAW_SONY_ILCE-7RM2.ARW", 42, 7⟩ none 1024 =
      Except.ok
        (previewPathFor (file_hash_of_raw_and_filters ⟨"data/raw/RAW_SONY_ILCE-7RM2.ARW", 42, 7⟩
           ((none : Option FiltersConfig).getD preview_default_filters)), [], none) ∧
     full_process_raw none (fun p => p) (fun p => p) (fun _ r => r) (some 50)
        [previewPathFor (file_hash_of_raw_and_filters ⟨"data/raw/RAW_SONY_ILCE-7RM2.ARW", 42, 7⟩
            preview_default_filters),
         fullPathFor (file_hash_of_raw_and_filters ⟨"data/raw/RAW_SONY_ILCE-7RM2.ARW", 42, 7⟩
            full_default_filters)]
        ⟨"data/raw/RAW_SONY_ILCE-7RM2.ARW", 42, 7⟩ none 92 =
      Except.ok
        (fullPathFor (file_hash_of_raw_and_filters ⟨"data/raw/RAW_SONY_ILCE-7RM2.ARW", 42, 7⟩
           ((none : Option FiltersConfig).getD full_default_filters)), [], none)) :=
  ⟨⟨List.mem_cons_self _ _, List.mem_cons_of_mem _ (List.mem_cons_self _ _)⟩,
   cache_hit_short_circuit none (fun p => p) (fun p => p) (fun _ r => r) (fun _ _ r => r)
     (some 50) _ ⟨"data/raw/RAW_SONY_ILCE-7RM2.ARW", 42, 7⟩ none 1024 92
     (List.mem_cons_self _ _) (List.mem_cons_of_mem _ (List.mem_cons_self _ _))⟩

/-- C4.  In full processing, the effective JPEG encode quality is
`max(85, q - 6)` when the battery percentage is known and at most 15, and the
requested quality unchanged otherwise; in particular battery 10 with
requested quality 92 gives 86, and battery 50 with requested quality 92
gives 92. -/
theorem battery_adjusted_quality (b quality : ℤ) :
    effective_quality (some b) quality =
      (if b ≤ 15 then max 85 (quality - 6) else quality) ∧
    effective_quality none quality = quality ∧
    effective_quality (some 10) 92 = 86 ∧
    effective_quality (some 50) 92 = 92 := by
  refine ⟨rfl, rfl, by decide, by decide⟩

/-- C5.  `processing_policy` derives `n_workers` from the CPU count as
`min(6, cpu-1)` for `cpu >= 8`, `cpu-1` for `4 <= cpu < 8` and `1` below,
and halves that baseline — integer floor division, minimum 1 — exactly when
the battery percentage is known and at most 20; `int(n_workers / 2)` from
the source (rational floor of the halved baseline) agrees with natural floor
division by 2.  In particular CPU count 8 with battery 15 yields 3
workers. -/
theorem policy_n_workers (cpu : ℕ) (b : ℤ) (opencl : Bool) :
    (processing_policy cpu (some b) opencl).n_workers =
      (if b ≤ 20 then
         max 1 ((if 8 ≤ cpu then min 6 (cpu - 1) else if 4 ≤ cpu then cpu - 1 else 1) / 2)
       else (if 8 ≤ cpu then min 6 (cpu - 1) else if 4 ≤ cpu then cpu - 1 else 1)) ∧
    (processing_policy cpu none opencl).n_workers =
      (if 8 ≤ cpu then min 6 (cpu - 1) else if 4 ≤ cpu then cpu - 1 else 1) ∧
    (processing_policy 8 (some 15) opencl).n_workers = 3 := by
  have hfl : ∀ n : ℕ, ⌊(n : ℚ) / 2⌋₊ = n / 2 := fun n => by
    rw [show ((2 : ℚ)) = ((2 : ℕ) : ℚ) by norm_num, Nat.floor_div_nat, Nat.floor_natCast]
  have key : ∀ (cpu : ℕ) (b : ℤ) (oc : Bool),
      (processing_policy cpu (some b) oc).n_workers =
        (if b ≤ 20 then
           max 1 ((if 8 ≤ cpu then min 6 (cpu - 1) else if 4 ≤ cpu then cpu - 1 else 1) / 2)
         else (if 8 ≤ cpu then min 6 (cpu - 1) else if 4 ≤ cpu then cpu - 1 else 1)) := by
    intro cpu b oc
    simp only [processing_policy, hfl]
    by_cases hb : b ≤ 20 <;> simp [hb]
  refine ⟨key cpu b opencl, by simp [processing_policy], ?_⟩
  rw [key 8 15 opencl]
  decide

/-- Clamped byte values never exceed 255. -/
theorem clampByte_le (q : ℚ) : clampByte q ≤ 255 := by
  have h1 : max 0 (min 255 q) ≤ (255 : ℚ) :=
    max_le (by norm_num) (min_le_left _ _)
  calc clampByte q ≤ ⌊(255 : ℚ)⌋₊ := Nat.floor_mono h1
    _ = 255 := by norm_num

/-- C6.  For every input raster and every strength, `apply_warmth` maps each
pixel by multiplying the red channel (channel 2 of BGR) by `strength` and the
blue channel (channel 0) by exactly `2.0 - strength`, clamping each product
to the byte range, and leaves the green channel unchanged.  For strength
`1.1` the blue multiplier is exactly `0.9`, as on the concrete pixel
`(blue 100, green 50, red 200) ↦ (90, 50, 220)`. -/
theorem warmth_channel_semantics (img : Raster) (s : ℚ) (i : ℕ) :
    (apply_warmth img s).length = img.length ∧
    (apply_warmth img s)[i]? = (img[i]?).map
      (fun p => (clampByte ((p.1 : ℚ) * (2 - s)), p.2.1, clampByte ((p.2.2 : ℚ) * s))) ∧
    (2 : ℚ) - 11/10 = 9/10 ∧
    apply_warmth [(100, 50, 200)] (11/10) = [(90, 50, 220)] := by
  refine ⟨by simp [apply_warmth], by simp [apply_warmth], by norm_num, ?_⟩
  norm_num [apply_warmth, clampByte]

/-- Channel values within the 8-bit range, as a boolean predicate. -/
def pixelInRange (p : Pixel) : Bool :=
  decide (p.1 ≤ 255) && decide (p.2.1 ≤ 255) && decide (p.2.2 ≤ 255)

/-- C7.  For every raster and all brightness/contrast values,
`adjust_brightness_contrast` computes per channel
`clamp(in * contrast + (brightness - 1.0) * 128, 0, 255)` and every output
channel lies in the byte range, including for adversarial parameters such as
contrast 2 and brightness 5 on the concrete raster below. -/
theorem brightness_contrast_clamped (img : Raster) (brightness contrast : ℚ)
    (i c : ℕ) :
    (adjust_brightness_contrast img brightness contrast)[i]? = (img[i]?).map
      (fun p => (bcByte brightness contrast p.1, bcByte brightness contrast p.2.1,
                 bcByte brightness contrast p.2.2)) ∧
    bcByte brightness contrast c =
      ⌊max 0 (min 255 ((c : ℚ) * contrast + (brightness - 1) * 128))⌋₊ ∧
    (adjust_brightness_contrast img brightness contrast).all pixelInRange = true ∧
    adjust_brightness_contrast [(200, 100, 0)] 5 2 = [(255, 255, 255)] := by
  refine ⟨by simp [adjust_brightness_contrast], rfl, ?_, ?_⟩
  · refine List.all_eq_true.2 (fun p hp => ?_)
    simp only [adjust_brightness_contrast, List.mem_map] at hp
    obtain ⟨q, -, rfl⟩ := hp
    simp only [pixelInRange, Bool.and_eq_true, decide_eq_true_eq]
    exact ⟨⟨clampByte_le _, clampByte_le _⟩, clampByte_le _⟩
  · norm_num [adjust_brightness_contrast, bcByte, clampByte]

/-- C8.  The background worker body `run_full` (both in `ensure_preview_on_start`
and in `/start`) is wrapped whole in `try/except Exception`, modelled by its
totality over the `Except` outcome of `full_process_raw`: every error value is
mapped to a Job Status record — the already-known preview reference, the error
description, and no full reference — rather than re-raised, and the
status-polling endpoint then reports exactly that record with `done = false`.
The preview reference recorded is the already-known one for success and
failure alike. -/
theorem background_error_recorded (prev : Option String) (e : String)
    (lp lf : Option String) (r : Except String String) :
    run_full prev (Except.error e) = ⟨prev, none, some e⟩ ∧
    status_endpoint (some (run_full prev (Except.error e))) lp lf =
      ⟨false, prev, none, some e⟩ ∧
    (run_full prev r).preview = prev := by
  refine ⟨rfl, rfl, ?_⟩
  cases r <;> rfl

/-- C9.  The preview resize step only ever downscales: its result dimensions
never exceed the originals, the larger result dimension never exceeds
`max_dim`, and when `max(h, w) <= max_dim` the raster keeps exactly its
original dimensions. -/
theorem preview_resize_only_downscales (h w max_dim : ℕ)
    (hh : 1 ≤ h) (hw : 1 ≤ w) (hm : 1 ≤ max_dim) :
    (resizedDims h w max_dim).1 ≤ h ∧ (resizedDims h w max_dim).2 ≤ w ∧
    max (resizedDims h w max_dim).1 (resizedDims h w max_dim).2 ≤ max_dim ∧
    (if max h w ≤ max_dim then resizedDims h w max_dim = (h, w) else True) := by
  have hM : 1 ≤ max h w := le_trans hh (le_max_left h w)
  have hM0 : (0 : ℚ) < ((max h w : ℕ) : ℚ) := by exact_mod_cast lt_of_lt_of_le one_pos hM
  by_cases hle : max h w ≤ max_dim
  · have hr : (1 : ℚ) ≤ (max_dim : ℚ) / ((max h w : ℕ) : ℚ) :=
      (one_le_div hM0).2 (by exact_mod_cast hle)
    have hsc : ¬ previewScale h w max_dim < 1 :=
      not_lt.2 (le_min le_rfl hr)
    rw [resizedDims, if_neg hsc]
    exact ⟨le_rfl, le_rfl, hle, by rw [if_pos hle]⟩
  · have hlt : max_dim < max h w := not_le.1 hle
    have hr : (max_dim : ℚ) / ((max h w : ℕ) : ℚ) < 1 :=
      (div_lt_one hM0).2 (by exact_mod_cast hlt)
    have hscale : previewScale h w max_dim = (max_dim : ℚ) / ((max h w : ℕ) : ℚ) :=
      min_eq_right (le_of_lt hr)
    have hsc : previewScale h w max_dim < 1 := by rw [hscale]; exact hr
    have hnn : (0 : ℚ) ≤ (max_dim : ℚ) / ((max h w : ℕ) : ℚ) :=
      div_nonneg (by positivity) (le_of_lt hM0)
    have hbound : ∀ d : ℕ, d ≤ max h w → ⌊(d : ℚ) * previewScale h w max_dim⌋₊ ≤ max_dim := by
      intro d hd
      have h1 : (d : ℚ) * previewScale h w max_dim ≤
          ((max h w : ℕ) : ℚ) * ((max_dim : ℚ) / ((max h w : ℕ) : ℚ)) := by
        rw [hscale]
        exact mul_le_mul_of_nonneg_right (by exact_mod_cast hd) hnn
      have h2 : ((max h w : ℕ) : ℚ) * ((max_dim : ℚ) / ((max h w : ℕ) : ℚ)) = (max_dim : ℚ) :=
        mul_div_cancel₀ _ (ne_of_gt hM0)
      calc ⌊(d : ℚ) * previewScale h w max_dim⌋₊
          ≤ ⌊(max_dim : ℚ)⌋₊ := Nat.floor_mono (h1.trans (le_of_eq h2))
        _ = max_dim := Nat.floor_natCast _
    have hshrink : ∀ d : ℕ, ⌊(d : ℚ) * previewScale h w max_dim⌋₊ ≤ d := by
      intro d
      have h1 : (d : ℚ) * previewScale h w max_dim ≤ (d : ℚ) * 1 :=
        mul_le_mul_of_nonneg_left (le_of_lt hsc) (by positivity)
      calc ⌊(d : ℚ) * previewScale h w max_dim⌋₊
          ≤ ⌊(d : ℚ)⌋₊ := Nat.floor_mono (by simpa using h1)
        _ = d := Nat.floor_natCast _
    rw [resizedDims, if_pos hsc]
    refine ⟨hshrink h, hshrink w, ?_, by rw [if_neg hle]; trivial⟩
    exact max_le (hbound h (le_max_left _ _)) (hbound w (le_max_right _ _))

/-- Witness for C9 at concrete dimensions 4 x 2 with `max_dim = 3`. -/
theorem preview_resize_only_downscales_witness :
    (1 ≤ 4 ∧ 1 ≤ 2 ∧ 1 ≤ 3) ∧
    ((resizedDims 4 2 3).1 ≤ 4 ∧ (resizedDims 4 2 3).2 ≤ 2 ∧
     max (resizedDims 4 2 3).1 (resizedDims 4 2 3).2 ≤ 3 ∧
     (if max 4 2 ≤ 3 then resizedDims 4 2 3 = (4, 2) else True)) :=
  ⟨⟨by decide, by decide, by decide⟩,
   preview_resize_only_downscales 4 2 3 (by decide) (by decide) (by decide)⟩

/-- C10.  With `filters_config=None`, `fast_preview_raw` substitutes the
preview preset and `full_process_raw` the full preset; both agree on
saturation 1.15, warmth 1.02, brightness 1.0 and contrast 1.02, but sharpen
is 0.0 in the preview preset and 0.5 in the full preset, so the two presets
are different parameter sets and the byte strings hashed into the two cache
keys differ for every source descriptor. -/
theorem default_presets_differ (src : SourceDesc) :
    ((none : Option FiltersConfig).getD preview_default_filters) = preview_default_filters ∧
    ((none : Option FiltersConfig).getD full_default_filters) = full_default_filters ∧
    dget preview_default_filters "saturation" 1 = 23/20 ∧
    dget full_default_filters "saturation" 1 = 23/20 ∧
    dget preview_default_filters "warmth" 1 = 51/50 ∧
    dget full_default_filters "warmth" 1 = 51/50 ∧
    dget preview_default_filters "brightness" 1 = 1 ∧
    dget full_default_filters "brightness" 1 = 1 ∧
    dget preview_default_filters "contrast" 1 = 51/50 ∧
    dget full_default_filters "contrast" 1 = 51/50 ∧
    dget preview_default_filters "sharpen" 0 = 0 ∧
    dget full_default_filters "sharpen" 0 = 1/2 ∧
    preview_default_filters ≠ full_default_filters ∧
    hashMessage src preview_default_filters ≠ hashMessage src full_default_filters := by
  have htail :
      (if preview_default_filters = ([] : List (String × ℚ)) then ([] : List ℕ)
       else strBytes (pyReprItems (sortItems preview_default_filters))) ≠
      (if full_default_filters = ([] : List (String × ℚ)) then ([] : List ℕ)
       else strBytes (pyReprItems (sortItems full_default_filters))) := by decide
  have q1 : dget preview_default_filters "saturation" 1 = mkRat 23 20 := rfl
  have q2 : dget full_default_filters "saturation" 1 = mkRat 23 20 := rfl
  have q3 : dget preview_default_filters "warmth" 1 = mkRat 51 50 := rfl
  have q4 : dget full_default_filters "warmth" 1 = mkRat 51 50 := rfl
  have q5 : dget preview_default_filters "contrast" 1 = mkRat 51 50 := rfl
  have q6 : dget full_default_filters "contrast" 1 = mkRat 51 50 := rfl
  have q7 : dget full_default_filters "sharpen" 0 = mkRat 1 2 := rfl
  refine ⟨rfl, rfl, ?_, ?_, ?_, ?_, rfl, rfl, ?_, ?_, rfl, ?_, by decide, ?_⟩
  · rw [q1, Rat.mkRat_eq_div]; norm_num
  · rw [q2, Rat.mkRat_eq_div]; norm_num
  · rw [q3, Rat.mkRat_eq_div]; norm_num
  · rw [q4, Rat.mkRat_eq_div]; norm_num
  · rw [q5, Rat.mkRat_eq_div]; norm_num
  · rw [q6, Rat.mkRat_eq_div]; norm_num
  · rw [q7, Rat.mkRat_eq_div]; norm_num
  · intro heq
    exact htail (List.append_cancel_left heq)
